import Mathlib

/-!
Verification development for the exclusive-subscription push engine of an
MQTT broker (crate mqtt-broker). The definitions below are a shallow
embedding of `src/mqtt-broker/src/subscribe/exclusive_sub.rs` and
`src/mqtt-broker/src/core/response_packet.rs`: the asynchronous effects
(storage reads and commits, response-queue enqueues, ack waits, logging,
metadata-cache lookups) are represented by explicit oracles and by traces
of the calls the code makes, and every loop is bounded by an explicit fuel
argument. QoS levels are embedded as natural numbers 0, 1, 2; pkids and
offsets as natural numbers.
-/

/-- A message as decoded from a stored record (metadata/message.rs Message,
only the fields the push worker reads). -/
structure Message where
  client_id : String
  qos : Nat
  retain : Bool
  payload : String
deriving DecidableEq, Repr

/-- A stored record handed back by read_topic_message: it carries its own
log offset plus opaque payload bytes to be decoded. -/
structure Record where
  offset : Nat
  data : List Nat
deriving DecidableEq, Repr

/-- An MQTT Publish packet as built by the push worker (protocol Publish,
only the fields the worker sets). -/
structure Publish where
  dup : Bool
  qos : Nat
  pkid : Nat
  retain : Bool
  topic : String
  payload : String
deriving DecidableEq, Repr

/-- One exclusive subscription entry, with the fields the push worker in
exclusive_sub.rs reads from it. -/
structure Subscription where
  client_id : String
  topic_id : String
  topic_name : String
  qos : Nat
  nolocal : Bool
  preserve_retain : Bool
  subscription_identifier : Option Nat
deriving DecidableEq, Repr

/-- Modelled from the spec: min_qos lives in subscribe/subscribe.rs, which
is not among the provided sources; the spec defines the effective QoS as
the minimum of the message QoS and the subscription QoS. -/
def min_qos (a b : Nat) : Nat := min a b

/-- The kind of acknowledgement packet routed through the ack manager
(qos/ack_manager.rs AckPackageType, not among the provided sources;
constructors taken from the ack kinds the push code matches on). -/
inductive AckPackageType where
  | pubAck
  | pubRec
  | pubRel
  | pubComp
deriving DecidableEq, Repr

/-- Modelled from the spec: the ack payload delivered to a waiting push
task (qos/ack_manager.rs AckPackageData is not among the provided
sources). The push code reads ack_type and pkid; the reason field carries
the MQTT reason code of the inbound ack, which per the spec is a failure
when it is at least 0x80. -/
structure AckPackageData where
  ack_type : AckPackageType
  pkid : Nat
  reason : Nat
deriving DecidableEq, Repr

/-- How the per-record retry loop of exclusive_sub_push_thread exited. -/
inductive LoopExit where
  | committedExit
  | abandonedExit
  | fuelOut
deriving DecidableEq, Repr

/-- Trace of one run of the per-record retry loop in
exclusive_sub_push_thread (lines 191-237): the Publish attempts handed to
publish_message_to_client, how often remove_pkid_info ran, the offsets
whose commit_group_offset succeeded, whether the abandonment error was
logged, and how the loop exited. -/
structure DeliveryTrace where
  attempts : List Publish
  pkid_removes : Nat
  commits : List Nat
  logged_push_error : Bool
  exit : LoopExit
deriving DecidableEq, Repr

/-- The retry loop of exclusive_sub_push_thread for one record, embedded
with oracles: publish_ok n tells whether the n-th call (1-based) of
publish_message_to_client returns Ok, commit_ok n whether the
commit_group_offset issued after the n-th call returns Ok. The loop state
is (fuel, attempt, retry_times) plus accumulators for the attempts made
(in reverse) and the remove_pkid_info count; retry_times starts at 1 and
is incremented only on a publish error, and the loop breaks with an error
log once it exceeds 3. On publish Ok the code removes the pkid and
commits; a failed commit loops back and publishes again (continue). -/
def push_retry_loop (publish_ok commit_ok : Nat → Bool) (packet : Publish)
    (offset : Nat) :
    Nat → Nat → Nat → List Publish → Nat → DeliveryTrace
  | 0, _, _, acc, removes =>
    ⟨acc.reverse, removes, [], false, LoopExit.fuelOut⟩
  | fuel + 1, attempt, retry_times, acc, removes =>
    if publish_ok attempt then
      if commit_ok attempt then
        ⟨(packet :: acc).reverse, removes + 1, [offset], false,
          LoopExit.committedExit⟩
      else
        push_retry_loop publish_ok commit_ok packet offset fuel
          (attempt + 1) retry_times (packet :: acc) (removes + 1)
    else
      if retry_times + 1 > 3 then
        ⟨(packet :: acc).reverse, removes, [], true, LoopExit.abandonedExit⟩
      else
        push_retry_loop publish_ok commit_ok packet offset fuel
          (attempt + 1) (retry_times + 1) (packet :: acc) removes

/-- What exclusive_sub_push_thread did with one record of a batch. The
constructors follow the control flow of the record loop: a decode error is
logged and skipped (continue), a nolocal self-message is skipped
(continue), a record whose client has no connect_id is skipped after the
pkid was already fetched (continue), and otherwise the built Publish
enters the retry loop. -/
inductive RecordAction where
  | decodeSkip
  | nolocalSkip
  | disconnectedSkip (pkid : Nat)
  | pushed (packet : Publish) (t : DeliveryTrace)
deriving DecidableEq, Repr

/-- The metadata-cache lookups the worker performs while walking one
batch, indexed by the record position in the batch: the cache is shared
mutable state, so each per-record get_pkid and get_connect_id call may
observe a different cache state (clients reconnect between records). -/
structure CacheView where
  get_pkid : Nat → Nat
  get_connect_id : Nat → Option Nat

/-- Processing of the i-th record of a batch by
exclusive_sub_push_thread (lines 134-237). decode stands for
Message.decode_record; publish_ok and commit_ok are the per-record oracles
of the retry loop, fuel bounds it. Mirrors the source order: decode, the
nolocal check, min_qos, retain, the unconditional get_pkid, packet
construction, then the get_connect_id check, then the retry loop. -/
def process_record (cache : CacheView) (subscribe : Subscription)
    (decode : Record → Option Message)
    (publish_ok commit_ok : Nat → Nat → Bool) (fuel : Nat)
    (i : Nat) (record : Record) : RecordAction :=
  match decode record with
  | none => RecordAction.decodeSkip
  | some msg =>
    if subscribe.nolocal && (subscribe.client_id == msg.client_id) then
      RecordAction.nolocalSkip
    else
      let qos := min_qos msg.qos subscribe.qos
      let retain := if subscribe.preserve_retain then msg.retain else false
      let pkid := cache.get_pkid i
      let publish : Publish :=
        ⟨false, qos, pkid, retain, subscribe.topic_name, msg.payload⟩
      match cache.get_connect_id i with
      | none => RecordAction.disconnectedSkip pkid
      | some _ =>
        RecordAction.pushed publish
          (push_retry_loop (publish_ok i) (commit_ok i) publish
            record.offset fuel 1 1 [] 0)

/-- The record loop of exclusive_sub_push_thread over one batch returned
by read_topic_message: the for loop has no break, every skip is a
continue, so every record of the batch is examined in order. -/
def process_batch (cache : CacheView) (subscribe : Subscription)
    (decode : Record → Option Message)
    (publish_ok commit_ok : Nat → Nat → Bool) (fuel : Nat)
    (records : List Record) : List RecordAction :=
  records.enum.map fun p =>
    process_record cache subscribe decode publish_ok commit_ok fuel p.1 p.2

/-- The offsets committed while handling one record. -/
def action_commits : RecordAction → List Nat
  | RecordAction.pushed _ t => t.commits
  | _ => []

/-- The Publish packet built for one record, if the control flow reached
packet construction and the client was connected. -/
def action_packet : RecordAction → Option Publish
  | RecordAction.pushed p _ => some p
  | _ => none

/-- All offsets committed over a batch, in batch order. -/
def batch_commits (actions : List RecordAction) : List Nat :=
  (actions.map action_commits).flatten

/-- How a run of publish_message_qos1 ended. -/
inductive Qos1Exit where
  | stopped
  | acked
  | fuelOut
deriving DecidableEq, Repr

/-- Trace of one run of publish_message_qos1 (exclusive_sub.rs lines
286-342): the Publish packets successfully enqueued onto the response
queue (each loop iteration enqueues resp.clone()), the number of
ack_manager.add registrations, whether ack_manager.remove ran, and how
the loop ended. -/
structure Qos1Trace where
  sent : List Publish
  registered : Nat
  removed : Bool
  exit : Qos1Exit
deriving DecidableEq, Repr

/-- publish_message_qos1, embedded with oracles indexed by the loop
iteration i: stop i is whether the stop channel yielded true, send_ok i
whether publish_to_response_queue returned Ok, acks i what
wait_packet_ack returned. On a successful enqueue the code registers a
waiter and breaks only when the received ack is a PubAck carrying the
same pkid; any other outcome (no ack, wrong kind, wrong pkid, enqueue
error) loops and re-enqueues the identical resp packet. -/
def publish_message_qos1_run (pkid : Nat) (stop send_ok : Nat → Bool)
    (acks : Nat → Option AckPackageData) (resp : Publish) :
    Nat → Nat → List Publish → Nat → Qos1Trace
  | 0, _, acc, reg => ⟨acc.reverse, reg, false, Qos1Exit.fuelOut⟩
  | fuel + 1, i, acc, reg =>
    if stop i then
      ⟨acc.reverse, reg, false, Qos1Exit.stopped⟩
    else if send_ok i then
      match acks i with
      | some data =>
        if data.ack_type = AckPackageType.pubAck ∧ data.pkid = pkid then
          ⟨(resp :: acc).reverse, reg + 1, true, Qos1Exit.acked⟩
        else
          publish_message_qos1_run pkid stop send_ok acks resp fuel
            (i + 1) (resp :: acc) (reg + 1)
      | none =>
        publish_message_qos1_run pkid stop send_ok acks resp fuel
          (i + 1) (resp :: acc) (reg + 1)
    else
      publish_message_qos1_run pkid stop send_ok acks resp fuel
        (i + 1) acc reg

/-- A packet the QoS-2 sender can enqueue onto the response queue: the
Publish itself or a PubRel for the exchange pkid (the source always sends
PubRel with reason Success and no properties). -/
inductive Qos2Packet where
  | pub (p : Publish)
  | pubrel (pkid : Nat)
deriving DecidableEq, Repr

/-- How a run of publish_message_qos2 ended. -/
inductive Qos2Exit where
  | done
  | sendPublishFailed
  | fuelOut
deriving DecidableEq, Repr

/-- Trace of one run of publish_message_qos2 (exclusive_sub.rs lines
344-428): packets successfully enqueued, whether the pubrec waiter was
registered with the ack manager, whether ack_manager.remove ran (it runs
only on PubComp), and how the run ended. -/
structure Qos2Trace where
  sent : List Qos2Packet
  registered : Bool
  removed : Bool
  exit : Qos2Exit
deriving DecidableEq, Repr

/-- The inner wait-for-PubComp loop of publish_message_qos2 (lines
396-407): it loops on wait_packet_ack until an ack with kind PubComp
arrives, then removes the ack entry and returns; nothing further is
enqueued. The wait oracle acks is indexed by a global wait counter w. -/
def qos2_wait_pubcomp (acks : Nat → Option AckPackageData) :
    Nat → Nat → List Qos2Packet → Qos2Trace
  | 0, _, acc => ⟨acc.reverse, true, false, Qos2Exit.fuelOut⟩
  | fuel + 1, w, acc =>
    match acks w with
    | some data =>
      if data.ack_type = AckPackageType.pubComp then
        ⟨acc.reverse, true, true, Qos2Exit.done⟩
      else
        qos2_wait_pubcomp acks fuel (w + 1) acc
    | none => qos2_wait_pubcomp acks fuel (w + 1) acc

/-- The outer wait-for-PubRec loop of publish_message_qos2 (lines
374-419): on any ack whose kind is PubRec — the reason code is never
inspected — it builds PubRel{pkid, Success} and enqueues it; on enqueue
success it enters the PubComp wait, on enqueue failure it logs and loops
back to waiting for PubRec; a non-PubRec ack is logged and waited past.
send_ok is indexed by the enqueue counter s, acks by the wait counter
w. -/
def qos2_wait_pubrec (pkid : Nat) (send_ok : Nat → Bool)
    (acks : Nat → Option AckPackageData) :
    Nat → Nat → Nat → List Qos2Packet → Qos2Trace
  | 0, _, _, acc => ⟨acc.reverse, true, false, Qos2Exit.fuelOut⟩
  | fuel + 1, w, s, acc =>
    match acks w with
    | some data =>
      if data.ack_type = AckPackageType.pubRec then
        if send_ok s then
          qos2_wait_pubcomp acks fuel (w + 1) (Qos2Packet.pubrel pkid :: acc)
        else
          qos2_wait_pubrec pkid send_ok acks fuel (w + 1) (s + 1) acc
      else
        qos2_wait_pubrec pkid send_ok acks fuel (w + 1) s acc
    | none => qos2_wait_pubrec pkid send_ok acks fuel (w + 1) s acc

/-- publish_message_qos2: enqueue the Publish; on failure log and return;
on success register the pubrec waiter and run the PubRec wait loop. -/
def publish_message_qos2_run (pkid : Nat) (send_ok : Nat → Bool)
    (acks : Nat → Option AckPackageData) (resp : Publish) (fuel : Nat) :
    Qos2Trace :=
  if send_ok 0 then
    qos2_wait_pubrec pkid send_ok acks fuel 0 1 [Qos2Packet.pub resp]
  else
    ⟨[], false, false, Qos2Exit.sendPublishFailed⟩

/-- The push-thread map key of exclusive_sub_push_thread (line 74). -/
def thread_key (client_id topic_id : String) : String :=
  client_id ++ "_" ++ topic_id

/-- One pass of exclusive_sub_push_thread over the subscription table
(lines 71-88), restricted to its effect on the push_thread handle map:
for every exclusive subscription whose thread key is not yet present a
worker is spawned and its key inserted; the pass never removes a key and
never sends on a stop channel. -/
def reconcile (subs : List Subscription) (workers : List String) :
    List String :=
  subs.foldl
    (fun ws sub =>
      let key := thread_key sub.client_id sub.topic_id
      if key ∈ ws then ws else ws ++ [key])
    workers


/-- An MQTT 5 PubAck packet body (protocol PubAck, pkid plus reason). The
reason is kept abstract as a natural reason code. -/
structure PubAck where
  pkid : Nat
  reason : Nat
deriving DecidableEq, Repr

/-- MQTT 5 PubAck properties (reason_string and user_properties). -/
structure PubAckProperties where
  reason_string : Option String
  user_properties : List (String × String)
deriving DecidableEq, Repr

/-- The slice of MQTTPacket built by the PubAck response constructors in
core/response_packet.rs. -/
inductive MQTTPacket5 where
  | pubAckPacket (ack : PubAck) (properties : Option PubAckProperties)
deriving DecidableEq, Repr

/-- Modelled from the spec: the Connection type lives in
core/connection.rs, which is not among the provided sources; the response
constructors only call its is_response_proplem_info method, which gates
whether a reason string may be attached to an outgoing packet. -/
structure Connection where
  response_proplem_info : Bool
deriving DecidableEq, Repr

def Connection.is_response_proplem_info (c : Connection) : Bool :=
  c.response_proplem_info

/-- response_packet_matt5_puback_success (response_packet.rs lines
107-118): a PubAck carrying the given pkid and reason, with properties
holding no reason string and the given user properties. -/
def response_packet_matt5_puback_success (reason : Nat) (pkid : Nat)
    (user_properties : List (String × String)) : MQTTPacket5 :=
  MQTTPacket5.pubAckPacket ⟨pkid, reason⟩ (some ⟨none, user_properties⟩)

/-- response_packet_matt5_puback_fail (response_packet.rs lines 120-132):
builds PubAck { pkid: 0, reason } — the pkid argument is not used in the
packet body — and attaches the reason string only when the connection
requested problem information. -/
def response_packet_matt5_puback_fail (connection : Connection)
    (pkid : Nat) (reason : Nat) (reason_string : Option String) :
    MQTTPacket5 :=
  let pub_ack : PubAck := ⟨0, reason⟩
  let properties : PubAckProperties :=
    if connection.is_response_proplem_info then ⟨reason_string, []⟩
    else ⟨none, []⟩
  MQTTPacket5.pubAckPacket pub_ack (some properties)

/-- The pkid carried in the body of a built packet. -/
def packet_pkid : MQTTPacket5 → Nat
  | MQTTPacket5.pubAckPacket ack _ => ack.pkid

/-- C10: for every input pkid, reason, and reason_string, the PubAck built
by response_packet_matt5_puback_fail carries packet identifier 0 (the pkid
argument is ignored in the packet body), while
response_packet_matt5_puback_success carries exactly the given pkid. -/
theorem C10_puback_pkid (connection : Connection) (pkid reason : Nat)
    (reason_string : Option String)
    (user_properties : List (String × String)) :
    packet_pkid
        (response_packet_matt5_puback_fail connection pkid reason
          reason_string) = 0 ∧
    packet_pkid
        (response_packet_matt5_puback_success reason pkid
          user_properties) = pkid := by
  exact ⟨rfl, rfl⟩

/-- C4 counterexample: with a decoder that rejects the record, the worker
produces a decode skip and commits nothing at all; in particular it does
not commit offset + 1 = 11 for the record at offset 10, contrary to the
claim. -/
theorem C4_counterexample :
    process_batch ⟨fun _ => 5, fun _ => some 9⟩
        ⟨"sub", "tid", "t", 1, false, false, none⟩ (fun _ => none)
        (fun _ _ => true) (fun _ _ => true) 3 [⟨10, []⟩]
      = [RecordAction.decodeSkip] ∧
    batch_commits
        (process_batch ⟨fun _ => 5, fun _ => some 9⟩
          ⟨"sub", "tid", "t", 1, false, false, none⟩ (fun _ => none)
          (fun _ _ => true) (fun _ _ => true) 3 [⟨10, []⟩])
      ≠ [10 + 1] := by
  constructor
  · rfl
  · decide

/-- C4 (amended): for every record that fails to decode, the worker logs
the error and skips to the next record of the batch without committing
anything for it; the committed group offset does not advance past the
record (the source continue carries no commit of offset + 1). -/
theorem C4_decode_error_skips_without_commit (cache : CacheView)
    (subscribe : Subscription) (decode : Record → Option Message)
    (publish_ok commit_ok : Nat → Nat → Bool) (fuel i : Nat)
    (record : Record) (hdec : decode record = none) :
    process_record cache subscribe decode publish_ok commit_ok fuel i record
      = RecordAction.decodeSkip ∧
    action_commits
        (process_record cache subscribe decode publish_ok commit_ok fuel i
          record) = [] := by
  constructor
  · simp [process_record, hdec]
  · simp [process_record, hdec, action_commits]

/-- C4 witness: the theorem applied to a concrete cache, subscription,
always-failing decoder and record. -/
theorem C4_witness :
    process_record ⟨fun _ => 5, fun _ => some 9⟩
        ⟨"sub", "tid", "t", 1, false, false, none⟩ (fun _ => none)
        (fun _ _ => true) (fun _ _ => true) 3 0 ⟨10, []⟩
      = RecordAction.decodeSkip ∧
    action_commits
        (process_record ⟨fun _ => 5, fun _ => some 9⟩
          ⟨"sub", "tid", "t", 1, false, false, none⟩ (fun _ => none)
          (fun _ _ => true) (fun _ _ => true) 3 0 ⟨10, []⟩) = [] :=
  C4_decode_error_skips_without_commit ⟨fun _ => 5, fun _ => some 9⟩
    ⟨"sub", "tid", "t", 1, false, false, none⟩ (fun _ => none)
    (fun _ _ => true) (fun _ _ => true) 3 0 ⟨10, []⟩ rfl

/-- C5 counterexample: subscriber "c" with nolocal = true receives a
record stored by client "c"; the worker skips it (no packet, as claimed)
but also commits nothing, so the committed group offset does not advance
past the record, contrary to the claim. -/
theorem C5_counterexample :
    process_record ⟨fun _ => 5, fun _ => some 9⟩
        ⟨"c", "tid", "t", 1, true, false, none⟩
        (fun _ => some ⟨"c", 1, false, "m"⟩)
        (fun _ _ => true) (fun _ _ => true) 3 0 ⟨10, []⟩
      = RecordAction.nolocalSkip ∧
    action_commits
        (process_record ⟨fun _ => 5, fun _ => some 9⟩
          ⟨"c", "tid", "t", 1, true, false, none⟩
          (fun _ => some ⟨"c", 1, false, "m"⟩)
          (fun _ _ => true) (fun _ _ => true) 3 0 ⟨10, []⟩)
      ≠ [10] := by
  constructor
  · rfl
  · decide

/-- C5 (amended): for every record with subscription.nolocal = true whose
stored client_id equals the subscriber client_id, no Publish packet is
produced for that subscriber and nothing is committed for that record:
the worker skips it with continue and the group offset is left where it
was. -/
theorem C5_nolocal_skips_without_commit (cache : CacheView)
    (subscribe : Subscription) (decode : Record → Option Message)
    (publish_ok commit_ok : Nat → Nat → Bool) (fuel i : Nat)
    (record : Record) (msg : Message) (hdec : decode record = some msg)
    (hnol : subscribe.nolocal = true)
    (heq : subscribe.client_id = msg.client_id) :
    process_record cache subscribe decode publish_ok commit_ok fuel i record
      = RecordAction.nolocalSkip ∧
    action_packet
        (process_record cache subscribe decode publish_ok commit_ok fuel i
          record) = none ∧
    action_commits
        (process_record cache subscribe decode publish_ok commit_ok fuel i
          record) = [] := by
  have h : process_record cache subscribe decode publish_ok commit_ok fuel
      i record = RecordAction.nolocalSkip := by
    simp [process_record, hdec, hnol, heq]
  exact ⟨h, by rw [h]; rfl, by rw [h]; rfl⟩

/-- C5 witness: the theorem applied to the concrete self-delivery
scenario of the counterexample. -/
theorem C5_witness :
    process_record ⟨fun _ => 5, fun _ => some 9⟩
        ⟨"c", "tid", "t", 1, true, false, none⟩
        (fun _ => some ⟨"c", 1, false, "m"⟩)
        (fun _ _ => true) (fun _ _ => true) 3 0 ⟨10, []⟩
      = RecordAction.nolocalSkip ∧
    action_packet
        (process_record ⟨fun _ => 5, fun _ => some 9⟩
          ⟨"c", "tid", "t", 1, true, false, none⟩
          (fun _ => some ⟨"c", 1, false, "m"⟩)
          (fun _ _ => true) (fun _ _ => true) 3 0 ⟨10, []⟩) = none ∧
    action_commits
        (process_record ⟨fun _ => 5, fun _ => some 9⟩
          ⟨"c", "tid", "t", 1, true, false, none⟩
          (fun _ => some ⟨"c", 1, false, "m"⟩)
          (fun _ _ => true) (fun _ _ => true) 3 0 ⟨10, []⟩) = [] :=
  C5_nolocal_skips_without_commit ⟨fun _ => 5, fun _ => some 9⟩
    ⟨"c", "tid", "t", 1, true, false, none⟩
    (fun _ => some ⟨"c", 1, false, "m"⟩)
    (fun _ _ => true) (fun _ _ => true) 3 0 ⟨10, []⟩
    ⟨"c", 1, false, "m"⟩ rfl rfl rfl

/-- C7: for every message that reaches packet construction and delivery,
the QoS field of the built Publish packet equals min_qos of the message
QoS and the subscription QoS. -/
theorem C7_effective_qos_is_min (cache : CacheView)
    (subscribe : Subscription) (decode : Record → Option Message)
    (publish_ok commit_ok : Nat → Nat → Bool) (fuel i : Nat)
    (record : Record) (msg : Message) (cid : Nat)
    (hdec : decode record = some msg)
    (hnl : (subscribe.nolocal && (subscribe.client_id == msg.client_id))
        = false)
    (hconn : cache.get_connect_id i = some cid) :
    ∃ p, action_packet
        (process_record cache subscribe decode publish_ok commit_ok fuel i
          record) = some p ∧
      p.qos = min_qos msg.qos subscribe.qos := by
  refine ⟨⟨false, min_qos msg.qos subscribe.qos, cache.get_pkid i,
    (if subscribe.preserve_retain then msg.retain else false),
    subscribe.topic_name, msg.payload⟩, ?_, rfl⟩
  simp [process_record, hdec, hnl, hconn, action_packet]

/-- C7 witness: the theorem applied to a concrete connected subscriber
with message QoS 2 and subscription QoS 1. -/
theorem C7_witness :
    ∃ p, action_packet
        (process_record ⟨fun _ => 5, fun _ => some 9⟩
          ⟨"c", "tid", "t", 1, false, false, none⟩
          (fun _ => some ⟨"pub", 2, false, "m"⟩)
          (fun _ _ => true) (fun _ _ => true) 3 0 ⟨10, []⟩) = some p ∧
      p.qos = min_qos 2 1 :=
  C7_effective_qos_is_min ⟨fun _ => 5, fun _ => some 9⟩
    ⟨"c", "tid", "t", 1, false, false, none⟩
    (fun _ => some ⟨"pub", 2, false, "m"⟩)
    (fun _ _ => true) (fun _ _ => true) 3 0 ⟨10, []⟩
    ⟨"pub", 2, false, "m"⟩ 9 rfl rfl rfl

/-- C8 counterexample: a QoS-0 delivery (message QoS 0, subscription QoS
0) through a cache whose pkid allocator answers 5 yields a Publish packet
with qos = 0 that carries pkid 5, not pkid 0: the worker fetched a pkid
even though the effective QoS is 0, contrary to the claim. -/
theorem C8_counterexample :
    action_packet
        (process_record ⟨fun _ => 5, fun _ => some 9⟩
          ⟨"c", "tid", "t", 0, false, false, none⟩
          (fun _ => some ⟨"pub", 0, false, "m"⟩)
          (fun _ _ => true) (fun _ _ => true) 3 0 ⟨10, []⟩)
      = some ⟨false, 0, 5, false, "t", "m"⟩ ∧ (5 : Nat) ≠ 0 := by
  constructor
  · rfl
  · decide

/-- C8 (amended): the worker calls get_pkid on the metadata cache for
every record that passes the decode and nolocal steps, regardless of the
effective QoS: a delivered packet always carries the fetched pkid (even
when its QoS is 0), and even a record dropped for a missing connect_id
has already fetched one. -/
theorem C8_pkid_fetched_unconditionally (cache : CacheView)
    (subscribe : Subscription) (decode : Record → Option Message)
    (publish_ok commit_ok : Nat → Nat → Bool) (fuel i : Nat)
    (record : Record) (msg : Message) (hdec : decode record = some msg)
    (hnl : (subscribe.nolocal && (subscribe.client_id == msg.client_id))
        = false) :
    (cache.get_connect_id i = none →
      process_record cache subscribe decode publish_ok commit_ok fuel i
          record = RecordAction.disconnectedSkip (cache.get_pkid i)) ∧
    (∀ cid, cache.get_connect_id i = some cid →
      ∃ p, action_packet
          (process_record cache subscribe decode publish_ok commit_ok fuel
            i record) = some p ∧
        p.pkid = cache.get_pkid i) := by
  constructor
  · intro hconn
    simp [process_record, hdec, hnl, hconn]
  · intro cid hconn
    refine ⟨⟨false, min_qos msg.qos subscribe.qos, cache.get_pkid i,
      (if subscribe.preserve_retain then msg.retain else false),
      subscribe.topic_name, msg.payload⟩, ?_, rfl⟩
    simp [process_record, hdec, hnl, hconn, action_packet]

/-- C8 witness: the theorem applied to the concrete QoS-0 scenario of the
counterexample, using the connected branch. -/
theorem C8_witness :
    (CacheView.get_connect_id ⟨fun _ => 5, fun _ => some 9⟩ 0 = none →
      process_record ⟨fun _ => 5, fun _ => some 9⟩
          ⟨"c", "tid", "t", 0, false, false, none⟩
          (fun _ => some ⟨"pub", 0, false, "m"⟩)
          (fun _ _ => true) (fun _ _ => true) 3 0 ⟨10, []⟩
        = RecordAction.disconnectedSkip
            (CacheView.get_pkid ⟨fun _ => 5, fun _ => some 9⟩ 0)) ∧
    (∀ cid,
      CacheView.get_connect_id ⟨fun _ => 5, fun _ => some 9⟩ 0 = some cid →
      ∃ p, action_packet
          (process_record ⟨fun _ => 5, fun _ => some 9⟩
            ⟨"c", "tid", "t", 0, false, false, none⟩
            (fun _ => some ⟨"pub", 0, false, "m"⟩)
            (fun _ _ => true) (fun _ _ => true) 3 0 ⟨10, []⟩) = some p ∧
        p.pkid = CacheView.get_pkid ⟨fun _ => 5, fun _ => some 9⟩ 0) :=
  C8_pkid_fetched_unconditionally ⟨fun _ => 5, fun _ => some 9⟩
    ⟨"c", "tid", "t", 0, false, false, none⟩
    (fun _ => some ⟨"pub", 0, false, "m"⟩)
    (fun _ _ => true) (fun _ _ => true) 3 0 ⟨10, []⟩
    ⟨"pub", 0, false, "m"⟩ rfl rfl

/-- C2 counterexample: the client has no connect_id while record 0 (offset
10) is processed but has reconnected (connect_id 9) by record 1 (offset
11). The worker skips record 0 with continue and still delivers and
commits record 1 of the same batch, so it neither breaks out of the
record loop nor stops committing later records, contrary to the claim. -/
theorem C2_counterexample :
    process_batch ⟨fun _ => 5, fun i => if i = 0 then none else some 9⟩
        ⟨"c", "tid", "t", 1, false, false, none⟩
        (fun _ => some ⟨"pub", 1, false, "m"⟩)
        (fun _ _ => true) (fun _ _ => true) 3 [⟨10, []⟩, ⟨11, []⟩]
      = [RecordAction.disconnectedSkip 5,
         RecordAction.pushed ⟨false, 1, 5, false, "t", "m"⟩
           ⟨[⟨false, 1, 5, false, "t", "m"⟩], 1, [11], false,
             LoopExit.committedExit⟩] ∧
    batch_commits
        (process_batch ⟨fun _ => 5, fun i => if i = 0 then none else some 9⟩
          ⟨"c", "tid", "t", 1, false, false, none⟩
          (fun _ => some ⟨"pub", 1, false, "m"⟩)
          (fun _ _ => true) (fun _ _ => true) 3 [⟨10, []⟩, ⟨11, []⟩])
      = [11] := by
  exact ⟨rfl, rfl⟩

/-- C2 (amended): when the metadata cache cannot resolve a connect_id for
the subscriber, the worker does not commit that record and skips it with
continue; it does not break out of the record loop: the batch loop
examines every record of the batch (one action per record), and a later
record is delivered if the client has reconnected by then. -/
theorem C2_disconnected_skips_record_only (cache : CacheView)
    (subscribe : Subscription) (decode : Record → Option Message)
    (publish_ok commit_ok : Nat → Nat → Bool) (fuel i : Nat)
    (record : Record) (msg : Message) (records : List Record)
    (hdec : decode record = some msg)
    (hnl : (subscribe.nolocal && (subscribe.client_id == msg.client_id))
        = false)
    (hconn : cache.get_connect_id i = none) :
    process_record cache subscribe decode publish_ok commit_ok fuel i record
      = RecordAction.disconnectedSkip (cache.get_pkid i) ∧
    action_commits
        (process_record cache subscribe decode publish_ok commit_ok fuel i
          record) = [] ∧
    (process_batch cache subscribe decode publish_ok commit_ok fuel
        records).length = records.length := by
  have h : process_record cache subscribe decode publish_ok commit_ok fuel
      i record = RecordAction.disconnectedSkip (cache.get_pkid i) := by
    simp [process_record, hdec, hnl, hconn]
  refine ⟨h, by rw [h]; rfl, ?_⟩
  simp [process_batch, List.length_map, List.enum_length]

/-- C2 witness: the theorem applied to a concrete disconnected cache and
a two-record batch. -/
theorem C2_witness :
    process_record ⟨fun _ => 5, fun _ => none⟩
        ⟨"c", "tid", "t", 1, false, false, none⟩
        (fun _ => some ⟨"pub", 1, false, "m"⟩)
        (fun _ _ => true) (fun _ _ => true) 3 0 ⟨10, []⟩
      = RecordAction.disconnectedSkip
          (CacheView.get_pkid ⟨fun _ => 5, fun _ => none⟩ 0) ∧
    action_commits
        (process_record ⟨fun _ => 5, fun _ => none⟩
          ⟨"c", "tid", "t", 1, false, false, none⟩
          (fun _ => some ⟨"pub", 1, false, "m"⟩)
          (fun _ _ => true) (fun _ _ => true) 3 0 ⟨10, []⟩) = [] ∧
    (process_batch ⟨fun _ => 5, fun _ => none⟩
        ⟨"c", "tid", "t", 1, false, false, none⟩
        (fun _ => some ⟨"pub", 1, false, "m"⟩)
        (fun _ _ => true) (fun _ _ => true) 3
        [⟨10, []⟩, ⟨11, []⟩]).length
      = ([⟨10, []⟩, ⟨11, []⟩] : List Record).length :=
  C2_disconnected_skips_record_only ⟨fun _ => 5, fun _ => none⟩
    ⟨"c", "tid", "t", 1, false, false, none⟩
    (fun _ => some ⟨"pub", 1, false, "m"⟩)
    (fun _ _ => true) (fun _ _ => true) 3 0 ⟨10, []⟩
    ⟨"pub", 1, false, "m"⟩ [⟨10, []⟩, ⟨11, []⟩] rfl rfl rfl

/-- C1 counterexample: with publish_message_to_client failing on every
call, the retry loop abandons the record (error logged, abandoned exit)
after three attempts, yet remove_pkid_info never ran and nothing was
committed for the record at offset 7 — the pkid is not released and the
offset is not committed, contrary to the claim. -/
theorem C1_counterexample :
    (push_retry_loop (fun _ => false) (fun _ => true)
        ⟨false, 1, 5, false, "t", "m"⟩ 7 3 1 1 [] 0).exit
      = LoopExit.abandonedExit ∧
    (push_retry_loop (fun _ => false) (fun _ => true)
        ⟨false, 1, 5, false, "t", "m"⟩ 7 3 1 1 [] 0).pkid_removes = 0 ∧
    (push_retry_loop (fun _ => false) (fun _ => true)
        ⟨false, 1, 5, false, "t", "m"⟩ 7 3 1 1 [] 0).commits ≠ [7] := by
  refine ⟨rfl, rfl, by decide⟩

/-- C1 (amended): when every call of publish_message_to_client for a
record fails, the worker logs an error after three attempts and moves on
to the next record, but it neither releases the pkid (remove_pkid_info is
never reached on the failure path) nor commits the record offset: the
loop ends with exactly three identical attempts, zero pkid removals and
an empty commit list. -/
theorem C1_abandon_drops_without_commit_or_release
    (publish_ok commit_ok : Nat → Bool) (packet : Publish)
    (offset fuel : Nat) (hfail : ∀ n, publish_ok n = false)
    (hfuel : 3 ≤ fuel) :
    push_retry_loop publish_ok commit_ok packet offset fuel 1 1 [] 0
      = ⟨[packet, packet, packet], 0, [], true, LoopExit.abandonedExit⟩ := by
  obtain ⟨k, rfl⟩ : ∃ k, fuel = k + 3 := ⟨fuel - 3, by omega⟩
  show push_retry_loop publish_ok commit_ok packet offset (k + 1 + 1 + 1)
      1 1 [] 0 = _
  simp [push_retry_loop, hfail]

/-- C1 witness: the theorem applied to the always-failing publish oracle
with fuel 3. -/
theorem C1_witness :
    push_retry_loop (fun _ => false) (fun _ => true)
        ⟨false, 1, 5, false, "t", "m"⟩ 7 3 1 1 [] 0
      = ⟨[⟨false, 1, 5, false, "t", "m"⟩, ⟨false, 1, 5, false, "t", "m"⟩,
          ⟨false, 1, 5, false, "t", "m"⟩], 0, [], true,
          LoopExit.abandonedExit⟩ :=
  C1_abandon_drops_without_commit_or_release (fun _ => false)
    (fun _ => true) ⟨false, 1, 5, false, "t", "m"⟩ 7 3 (fun _ => rfl)
    (by decide)

/-- Every packet a publish_message_qos1 run enqueues is either one of the
previously accumulated packets or the resp packet itself: the loop always
re-enqueues resp.clone() unchanged. -/
theorem qos1_sent_mem (pkid : Nat) (stop send_ok : Nat → Bool)
    (acks : Nat → Option AckPackageData) (resp : Publish) :
    ∀ fuel i acc reg q,
      q ∈ (publish_message_qos1_run pkid stop send_ok acks resp fuel i acc
          reg).sent →
      q ∈ acc ∨ q = resp := by
  intro fuel
  induction fuel with
  | zero =>
    intro i acc reg q hq
    rw [publish_message_qos1_run] at hq
    exact Or.inl (List.mem_reverse.mp hq)
  | succ n ih =>
    intro i acc reg q hq
    rw [publish_message_qos1_run] at hq
    by_cases hstop : stop i
    · simp only [hstop, if_true] at hq
      exact Or.inl (List.mem_reverse.mp hq)
    · simp only [hstop, if_false, Bool.false_eq_true, ite_false] at hq
      by_cases hsend : send_ok i
      · simp only [hsend, if_true] at hq
        cases hak : acks i with
        | none =>
          rw [hak] at hq
          rcases ih (i + 1) (resp :: acc) (reg + 1) q hq with h | h
          · rcases List.mem_cons.mp h with h | h
            · exact Or.inr h
            · exact Or.inl h
          · exact Or.inr h
        | some data =>
          rw [hak] at hq
          by_cases hd : data.ack_type = AckPackageType.pubAck ∧
              data.pkid = pkid
          · simp only [hd, if_true] at hq
            rcases List.mem_cons.mp (List.mem_reverse.mp hq) with h | h
            · exact Or.inr h
            · exact Or.inl h
          · simp only [hd, if_false] at hq
            rcases ih (i + 1) (resp :: acc) (reg + 1) q hq with h | h
            · rcases List.mem_cons.mp h with h | h
              · exact Or.inr h
              · exact Or.inl h
            · exact Or.inr h
      · simp only [hsend, if_false, Bool.false_eq_true, ite_false] at hq
        exact ih (i + 1) acc reg q hq

/-- C3 counterexample: the QoS-1 sender enqueues the Publish, receives no
ack on the first wait, and re-enqueues the identical packet, which is
then acked: the run contains a retransmission (two sends of the same
packet) and the retransmitted packet still carries dup = false, contrary
to the claim that every retransmission carries DUP = true. -/
theorem C3_counterexample :
    (publish_message_qos1_run 5 (fun _ => false) (fun _ => true)
        (fun w => if w = 0 then none
                  else some ⟨AckPackageType.pubAck, 5, 0⟩)
        ⟨false, 1, 5, false, "t", "m"⟩ 3 0 [] 0)
      = ⟨[⟨false, 1, 5, false, "t", "m"⟩, ⟨false, 1, 5, false, "t", "m"⟩],
          2, true, Qos1Exit.acked⟩ ∧
    Publish.dup ⟨false, 1, 5, false, "t", "m"⟩ = false := by
  exact ⟨rfl, rfl⟩

/-- C3 (amended): every Publish packet the exclusive worker hands to the
QoS-1 sender carries dup = false, and every transmission of it — the
first as well as every retransmission of that same packet — is enqueued
with dup = false: the sender never sets the DUP flag. -/
theorem C3_dup_false_on_all_transmissions (cache : CacheView)
    (subscribe : Subscription) (decode : Record → Option Message)
    (publish_ok commit_ok : Nat → Nat → Bool) (fuel i : Nat)
    (record : Record) (msg : Message) (cid : Nat) (resp : Publish)
    (pkid : Nat) (stop send_ok : Nat → Bool)
    (acks : Nat → Option AckPackageData) (qfuel j : Nat)
    (hdec : decode record = some msg)
    (hnl : (subscribe.nolocal && (subscribe.client_id == msg.client_id))
        = false)
    (hconn : cache.get_connect_id i = some cid)
    (hresp : action_packet
        (process_record cache subscribe decode publish_ok commit_ok fuel i
          record) = some resp) :
    resp.dup = false ∧
    ∀ q ∈ (publish_message_qos1_run pkid stop send_ok acks resp qfuel j []
        0).sent, q.dup = false := by
  have hdup : resp.dup = false := by
    simp [process_record, hdec, hnl, hconn, action_packet] at hresp
    rw [← hresp]
  refine ⟨hdup, fun q hq => ?_⟩
  rcases qos1_sent_mem pkid stop send_ok acks resp qfuel j [] 0 q hq
    with h | h
  · exact absurd h (List.not_mem_nil q)
  · rw [h]; exact hdup

/-- C3 witness: the theorem applied to the concrete retransmission
scenario of the counterexample. -/
theorem C3_witness :
    Publish.dup ⟨false, 1, 5, false, "t", "m"⟩ = false ∧
    ∀ q ∈ (publish_message_qos1_run 5 (fun _ => false) (fun _ => true)
        (fun w => if w = 0 then none
                  else some ⟨AckPackageType.pubAck, 5, 0⟩)
        ⟨false, 1, 5, false, "t", "m"⟩ 3 0 [] 0).sent,
      q.dup = false :=
  C3_dup_false_on_all_transmissions ⟨fun _ => 5, fun _ => some 9⟩
    ⟨"c", "tid", "t", 1, false, false, none⟩
    (fun _ => some ⟨"pub", 1, false, "m"⟩)
    (fun _ _ => true) (fun _ _ => true) 3 0 ⟨10, []⟩
    ⟨"pub", 1, false, "m"⟩ 9 ⟨false, 1, 5, false, "t", "m"⟩ 5
    (fun _ => false) (fun _ => true)
    (fun w => if w = 0 then none else some ⟨AckPackageType.pubAck, 5, 0⟩)
    3 0 rfl rfl rfl rfl

/-- The wait-for-PubComp loop enqueues nothing: the sent list of its
result is exactly the accumulated list (reversed into send order). -/
theorem qos2_pubcomp_sent_eq (acks : Nat → Option AckPackageData) :
    ∀ fuel w acc,
      (qos2_wait_pubcomp acks fuel w acc).sent = acc.reverse := by
  intro fuel
  induction fuel with
  | zero => intro w acc; rfl
  | succ n ih =>
    intro w acc
    rw [qos2_wait_pubcomp]
    cases hak : acks w with
    | none => exact ih (w + 1) acc
    | some data =>
      by_cases hd : data.ack_type = AckPackageType.pubComp
      · simp only [hd, if_true]
      · simp only [hd, if_false, ite_false]
        exact ih (w + 1) acc

/-- C6 counterexample: the QoS-2 sender receives a PubRec whose reason
code is 135 (0x87, ≥ 0x80), yet it still sends a PubRel and carries the
exchange through to PubComp, only then removing the ack entry: the
exchange is not terminated on the failure reason and the PubRel is sent,
contrary to the claim. -/
theorem C6_counterexample :
    (publish_message_qos2_run 1 (fun _ => true)
        (fun w => if w = 0 then some ⟨AckPackageType.pubRec, 1, 135⟩
                  else some ⟨AckPackageType.pubComp, 1, 0⟩)
        ⟨false, 2, 1, false, "t", "m"⟩ 4)
      = ⟨[Qos2Packet.pub ⟨false, 2, 1, false, "t", "m"⟩,
          Qos2Packet.pubrel 1], true, true, Qos2Exit.done⟩ ∧
    (128 : Nat) ≤ 135 := by
  exact ⟨rfl, by decide⟩

/-- C6 (amended): the QoS-2 sender reacts to every PubRec — whatever its
reason code, failure codes (≥ 0x80) included — by sending a PubRel for
the exchange pkid; the reason code of the PubRec is never inspected and
the ack entry is removed only when a PubComp arrives. -/
theorem C6_pubrel_sent_for_any_pubrec_reason (pkid pk2 r : Nat)
    (send_ok : Nat → Bool) (acks : Nat → Option AckPackageData)
    (resp : Publish) (f : Nat)
    (hack : acks 0 = some ⟨AckPackageType.pubRec, pk2, r⟩)
    (hs0 : send_ok 0 = true) (hs1 : send_ok 1 = true) :
    Qos2Packet.pubrel pkid
      ∈ (publish_message_qos2_run pkid send_ok acks resp (f + 1)).sent := by
  rw [publish_message_qos2_run]
  simp only [hs0, if_true]
  rw [qos2_wait_pubrec, hack]
  simp only [if_true, hs1]
  rw [qos2_pubcomp_sent_eq]
  simp

/-- C6 witness: the theorem applied to the concrete failure-reason PubRec
of the counterexample. -/
theorem C6_witness :
    Qos2Packet.pubrel 1
      ∈ (publish_message_qos2_run 1 (fun _ => true)
          (fun w => if w = 0 then some ⟨AckPackageType.pubRec, 1, 135⟩
                    else some ⟨AckPackageType.pubComp, 1, 0⟩)
          ⟨false, 2, 1, false, "t", "m"⟩ (3 + 1)).sent :=
  C6_pubrel_sent_for_any_pubrec_reason 1 1 135 (fun _ => true)
    (fun w => if w = 0 then some ⟨AckPackageType.pubRec, 1, 135⟩
              else some ⟨AckPackageType.pubComp, 1, 0⟩)
    ⟨false, 2, 1, false, "t", "m"⟩ 3 rfl rfl rfl

/-- C9 counterexample: with no exclusive subscriptions left, a pass of
the reconciliation loop leaves the stale worker handle a_b in place: the
set of live workers does not become equal to the (empty) set of exclusive
subscriptions, and no stop is sent, contrary to the claim. -/
theorem C9_counterexample :
    reconcile [] ["a_b"] = ["a_b"] ∧ reconcile [] ["a_b"] ≠ [] := by
  exact ⟨rfl, by decide⟩

/-- C9 (amended): a pass of exclusive_sub_push_thread over the
subscription table only adds worker handles: every pre-existing worker
handle survives the pass (no worker is ever sent stop=true or forgotten
by it), and every exclusive subscription ends up with a worker handle —
the live workers form a superset of the subscriptions, not an equal
set. -/
theorem C9_reconcile_spawns_but_never_stops (subs : List Subscription)
    (workers : List String) :
    (∀ w, w ∈ workers → w ∈ reconcile subs workers) ∧
    (∀ sub, sub ∈ subs →
      thread_key sub.client_id sub.topic_id ∈ reconcile subs workers) := by
  induction subs generalizing workers with
  | nil =>
    exact ⟨fun w hw => hw, fun sub h => absurd h (List.not_mem_nil sub)⟩
  | cons s rest ih =>
    have hstep : reconcile (s :: rest) workers
        = reconcile rest
            (if thread_key s.client_id s.topic_id ∈ workers then workers
             else workers ++ [thread_key s.client_id s.topic_id]) := rfl
    have hsub : ∀ w, w ∈ workers →
        w ∈ (if thread_key s.client_id s.topic_id ∈ workers then workers
             else workers ++ [thread_key s.client_id s.topic_id]) := by
      intro w hw
      by_cases hk : thread_key s.client_id s.topic_id ∈ workers
      · simp only [hk, if_true]; exact hw
      · simp only [hk, if_false, ite_false]
        exact List.mem_append_left _ hw
    have hkey : thread_key s.client_id s.topic_id
        ∈ (if thread_key s.client_id s.topic_id ∈ workers then workers
           else workers ++ [thread_key s.client_id s.topic_id]) := by
      by_cases hk : thread_key s.client_id s.topic_id ∈ workers
      · simp only [hk, if_true]
      · simp only [hk, if_false, ite_false]
        exact List.mem_append_right _ (List.mem_singleton.mpr rfl)
    constructor
    · intro w hw
      rw [hstep]
      exact (ih _).1 w (hsub w hw)
    · intro sub hmem
      rw [hstep]
      rcases List.mem_cons.mp hmem with h | h
      · rw [h]
        exact (ih _).1 _ hkey
      · exact (ih _).2 sub h

/-- C9 witness: the theorem applied to one subscription (client c, topic
t) and one unrelated stale worker handle x_y: the stale handle survives
the pass and the subscription gets its worker. -/
theorem C9_witness :
    "x_y" ∈ reconcile [⟨"c", "t", "tn", 1, false, false, none⟩] ["x_y"] ∧
    thread_key "c" "t"
      ∈ reconcile [⟨"c", "t", "tn", 1, false, false, none⟩] ["x_y"] :=
  ⟨(C9_reconcile_spawns_but_never_stops
      [⟨"c", "t", "tn", 1, false, false, none⟩] ["x_y"]).1 "x_y"
      (List.mem_singleton.mpr rfl),
   (C9_reconcile_spawns_but_never_stops
      [⟨"c", "t", "tn", 1, false, false, none⟩] ["x_y"]).2
      ⟨"c", "t", "tn", 1, false, false, none⟩
      (List.mem_singleton.mpr rfl)⟩
